import Mathlib

/-!
Verification of the data pipeline in `app_dashboard.py` (EmailExtractorDashboard).

The dashboard loads a spreadsheet into a pandas DataFrame
(`load_email_data_from_gsheets`), cleans it (`dropna(how='all')`,
`fillna('')`, `pd.to_numeric(..., errors='coerce')` on three numeric
columns), converts a date column with `pd.to_datetime(..., errors='coerce')`,
and renders per-column `value_counts()` aggregates.

We embed the DataFrame as a list of rows of dynamically typed cells and give
executable models of the pandas primitives the script uses, restricted to the
value shapes that actually occur in the pipeline (string cells and NA before
cleaning; numbers and datetimes only as outputs of the two coercions).
-/

/-- A calendar timestamp as produced by our model of `pd.to_datetime`
(year-month-day plus hour:minute time of day; seconds never occur in the
modelled input grammar). -/
structure DateTime where
  year : Nat
  month : Nat
  day : Nat
  hour : Nat
  minute : Nat
deriving DecidableEq, Repr

/-- A dynamically typed pandas cell: `na` is NaN/NaT, `str` a string cell,
`num` a numeric cell (rationals model the float values; the pipeline only
parses and groups them, never does arithmetic), `date` a datetime cell. -/
inductive Cell where
  | na : Cell
  | str : String → Cell
  | num : ℚ → Cell
  | date : DateTime → Cell
deriving DecidableEq, Repr

def Cell.isNA : Cell → Bool
  | .na => true
  | _ => false

/-- The in-memory table: named columns and rows of cells.  Row `r` stores the
cell of column `columns[j]` at position `j`. -/
structure DataFrame where
  columns : List String
  rows : List (List Cell)
deriving DecidableEq, Repr

/-- Well-formedness: every row has exactly one cell per column (always true of
a real pandas DataFrame). -/
def DataFrame.wf (t : DataFrame) : Bool :=
  t.rows.all (fun r => r.length == t.columns.length)

/-- `pd.DataFrame()` — the empty table returned on fetch failure. -/
def emptyDataFrame : DataFrame := ⟨[], []⟩

/-- `df.empty` — true when the frame has no elements. -/
def DataFrame.isEmptyDF (t : DataFrame) : Bool :=
  t.rows.isEmpty || t.columns.isEmpty

/-- `df[c]` — the column named `c` as a list of cells (`List.indexOf` returns
the list length when `c` is absent, so an absent column reads as all-NA; the
script only reads columns it has checked for). -/
def DataFrame.col (t : DataFrame) (c : String) : List Cell :=
  t.rows.map (fun r => r.getD (t.columns.indexOf c) .na)

/-- `df[c].iloc[i]` — the single cell of column `c` in row `i`. -/
def DataFrame.cell (t : DataFrame) (i : Nat) (c : String) : Cell :=
  (t.rows.getD i []).getD (t.columns.indexOf c) .na

/-- Value of a decimal digit character. -/
def digitVal (c : Char) : Option Nat :=
  if c.isDigit then some (c.toNat - 48) else none

/-- Reads a digit string as a natural number; `none` on any non-digit. -/
def digitsVal (cs : List Char) : Option Nat :=
  cs.foldlM (fun acc c => (digitVal c).map (fun d => 10 * acc + d)) 0

/-- Split a character list at the first `'.'`: the part before it, and the
part after it when a dot is present. -/
def breakDot : List Char → (List Char × Option (List Char))
  | [] => ([], none)
  | '.' :: rest => ([], some rest)
  | c :: rest =>
      let p := breakDot rest
      (c :: p.1, p.2)

/-- Models `pd.to_numeric(·, errors='coerce')` on one string: parses an
optionally signed decimal literal (`"3"`, `"-2.5"`, `".5"`, `"5."`), returns
`none` (NaN) for everything else, in particular for `""`.  Exponent notation
and surrounding whitespace are outside the modelled grammar. -/
def parseDecimal (s : String) : Option ℚ :=
  let core : List Char → Option ℚ := fun cs =>
    match breakDot cs with
    | (ip, none) =>
        if ip.isEmpty then none
        else (digitsVal ip).map (fun n => (n : ℚ))
    | (ip, some fp) =>
        if ip.isEmpty && fp.isEmpty then none
        else do
          let n ← digitsVal ip
          let f ← digitsVal fp
          pure ((n : ℚ) + (f : ℚ) / ((10 : ℚ) ^ fp.length))
  match s.toList with
  | '-' :: rest => (core rest).map (fun q => -q)
  | '+' :: rest => core rest
  | cs => core cs

def twoDig (a b : Char) : Option Nat := do
  let x ← digitVal a
  let y ← digitVal b
  pure (10 * x + y)

def fourDig (a b c d : Char) : Option Nat := do
  let x ← twoDig a b
  let y ← twoDig c d
  pure (100 * x + y)

def validDate (y mo da : Nat) : Bool :=
  0 < y && 1 ≤ mo && mo ≤ 12 && 1 ≤ da && da ≤ 31

/-- Models `pd.to_datetime(·, errors='coerce')` on one string: accepts ISO
dates `YYYY-MM-DD` (time 00:00) and `YYYY-MM-DD HH:MM`, rejects everything
else as NaT.  Other formats pandas would accept are outside the modelled
grammar. -/
def parseDatetime (s : String) : Option DateTime :=
  match s.toList with
  | [a, b, c, d, '-', e, f, '-', g, h] => do
      let y ← fourDig a b c d
      let mo ← twoDig e f
      let da ← twoDig g h
      if validDate y mo da then pure ⟨y, mo, da, 0, 0⟩ else none
  | [a, b, c, d, '-', e, f, '-', g, h, ' ', i, j, ':', k, l] => do
      let y ← fourDig a b c d
      let mo ← twoDig e f
      let da ← twoDig g h
      let hh ← twoDig i j
      let mi ← twoDig k l
      if validDate y mo da && hh < 24 && mi < 60 then
        pure ⟨y, mo, da, hh, mi⟩
      else none
  | _ => none

/-- Replace the cell at position `i` of a row (identity when `i` is out of
range), modelling a single-column assignment within one row. -/
def modifyAt (f : Cell → Cell) : Nat → List Cell → List Cell
  | _, [] => []
  | 0, c :: cs => f c :: cs
  | n + 1, c :: cs => c :: modifyAt f n cs

/-- `df[c] = f(df[c])` — apply `f` to every cell of column `c`. -/
def DataFrame.mapCol (t : DataFrame) (c : String) (f : Cell → Cell) : DataFrame :=
  ⟨t.columns, t.rows.map (modifyAt f (t.columns.indexOf c))⟩

/-- A raw row is fully empty when every cell is NA (a blank spreadsheet row). -/
def fullyEmptyRow (r : List Cell) : Bool := r.all Cell.isNA

/-- `df.dropna(how='all')` — drop the rows whose cells are all NA
(app_dashboard.py line 37). -/
def DataFrame.dropnaAll (t : DataFrame) : DataFrame :=
  ⟨t.columns, t.rows.filter (fun r => !fullyEmptyRow r)⟩

/-- `fillna('')` on one cell: NA becomes the empty string. -/
def fillCell : Cell → Cell
  | .na => .str ""
  | c => c

/-- `df.fillna('')` — replace every remaining NA cell by `""`
(app_dashboard.py line 38). -/
def DataFrame.fillna (t : DataFrame) : DataFrame :=
  ⟨t.columns, t.rows.map (fun r => r.map fillCell)⟩

/-- `pd.to_numeric(·, errors='coerce')` on one cell: strings parse to a
number or coerce to NaN, numbers pass through, NA stays NA.  (A datetime cell
never reaches this coercion in the script — numeric coercion runs before any
datetime exists — so its image is irrelevant; we send it to NA.) -/
def coerceNumericCell : Cell → Cell
  | .str s =>
    match parseDecimal s with
    | some q => .num q
    | none => .na
  | .num q => .num q
  | .na => .na
  | .date _ => .na

/-- The three numeric columns of app_dashboard.py line 41. -/
def numeric_cols : List String :=
  ["output.confidence", "output.sentiment_score", "output.priority_score"]

/-- Lines 42-44: for each designated numeric column that exists in the frame,
coerce it with `pd.to_numeric(errors='coerce')`; absent columns are skipped. -/
def DataFrame.toNumeric (t : DataFrame) : DataFrame :=
  numeric_cols.foldl
    (fun acc c => if c ∈ acc.columns then acc.mapCol c coerceNumericCell else acc) t

/-- One step of the numeric-coercion fold (lines 42-44), named for use in
proofs about `DataFrame.toNumeric`. -/
def numStep (acc : DataFrame) (c : String) : DataFrame :=
  if c ∈ acc.columns then acc.mapCol c coerceNumericCell else acc

/-- The cleaning pipeline of `load_email_data_from_gsheets` (lines 37-44):
drop all-NA rows, fill remaining NA cells with `""`, coerce the numeric
columns.  This is the spec's `normalize`. -/
def cleanData (t : DataFrame) : DataFrame :=
  t.dropnaAll.fillna.toNumeric

/-- A cell is a parsed number or NA (the only shapes a coerced numeric column
can hold). -/
def Cell.isNumOrNA : Cell → Bool
  | .na => true
  | .num _ => true
  | _ => false

/-- Count the occurrences of a cell value in a list of cells. -/
def countCell (v : Cell) : List Cell → Nat
  | [] => 0
  | c :: cs => (if c = v then 1 else 0) + countCell v cs

/-- `series.value_counts()` — occurrence counts of the distinct non-NA values
of a column.  pandas orders the result by descending count; the spec treats an
AggregateView as an order-irrelevant mapping, and we enumerate keys in the
order `List.dedup` produces. -/
def valueCounts (cells : List Cell) : List (Cell × Nat) :=
  let vals := cells.filter (fun c => !c.isNA)
  vals.dedup.map (fun v => (v, countCell v vals))

/-- Look a key up in an aggregate view. -/
def lookupCount (v : Cell) : List (Cell × Nat) → Option Nat
  | [] => none
  | (k, n) :: rest => if k = v then some n else lookupCount v rest

/-- `df[c].value_counts()` — the spec's `aggregateByCategory` (used for the
department, intent, product, urgency and action charts). -/
def aggregateByCategory (t : DataFrame) (c : String) : List (Cell × Nat) :=
  valueCounts (t.col c)

/-- The date column of app_dashboard.py line 170. -/
def date_col : String := "output.extracted_date_of_issue"

/-- `pd.to_datetime(·, errors='coerce')` on one cell (the column holds only
string cells at this point in the script, after `fillna('')`). -/
def coerceDateCell : Cell → Cell
  | .str s =>
    match parseDatetime s with
    | some d => .date d
    | none => .na
  | .date d => .date d
  | _ => .na

/-- Lines 170-175: convert the date column with `pd.to_datetime(errors=
'coerce')`, then `df.groupby(date_col).size()`; `groupby` drops NaT keys, so
this is the value-counts of the coerced column.  This is the spec's
`aggregateByDate` as the code implements it: the group key is the full parsed
timestamp — the code never truncates the time of day. -/
def aggregateByDate (t : DataFrame) : List (Cell × Nat) :=
  valueCounts ((t.col date_col).map coerceDateCell)

/-- Discard the time-of-day of a datetime cell. -/
def truncTime : Cell → Cell
  | .date d => .date ⟨d.year, d.month, d.day, 0, 0⟩
  | c => c

/-- Modelled from the spec, for comparison with `aggregateByDate`: "Groups by
the normalized date field's calendar-date value (time-of-day discarded);
records with a null date are excluded." -/
def aggregateByDate_spec (t : DataFrame) : List (Cell × Nat) :=
  valueCounts ((t.col date_col).map (fun c => truncTime (coerceDateCell c)))

/-- The six columns the page requires (app_dashboard.py lines 70-77). -/
def required_columns : List String :=
  ["output.extracted_requested_action",
   "output.routing_recommendation.department",
   "output.extracted_date_of_issue",
   "output.predicted_intent",
   "output.extracted_product",
   "output.urgency_level"]

/-- Line 79: the required columns absent from the loaded frame. -/
def missing_columns (t : DataFrame) : List String :=
  required_columns.filter (fun c => !t.columns.contains c)

/-- Lines 62-64 and 79-83: the page renders its charts only when the loaded
frame is non-empty and no required column is missing; otherwise it reports
the problem and calls `st.stop()`. -/
def dashboardRenders (t : DataFrame) : Bool :=
  !t.isEmptyDF && (missing_columns t).isEmpty

/-- `load_email_data_from_gsheets` (lines 16-49), with its three effectful
steps — establishing the connection, the primary `conn.read`, and the
fallback `conn.read(worksheet="Sheet1")` — abstracted as `Except` outcomes.
The result pairs the returned frame with the error message displayed via
`st.error` (`none` when no error is shown).  The bare `except:` at line 28
discards the primary failure; the message shown after a double failure quotes
only the fallback's exception. -/
def load_email_data_from_gsheets (conn : Except String Unit)
    (read1 read2 : Except String DataFrame) : DataFrame × Option String :=
  match conn with
  | .error e => (emptyDataFrame, some ("Error loading data from Google Sheets: " ++ e))
  | .ok _ =>
    match read1 with
    | .ok df => (cleanData df, none)
    | .error _ =>
      match read2 with
      | .ok df => (cleanData df, none)
      | .error e =>
        (emptyDataFrame, some ("Failed to read from Google Sheets: " ++ e))

/-- Number of `conn.read` network attempts the control flow of lines 25-34
performs, as a function of the primary outcome: one on success, two (the
primary plus exactly one fallback) otherwise. -/
def readAttempts (read1 : Except String DataFrame) : Nat :=
  match read1 with
  | .ok _ => 1
  | .error _ => 2

/-- The `@st.cache_data(ttl=30)` time-to-live in seconds (line 15). -/
def cacheTTL : Nat := 30

/-- The memo held by `st.cache_data` for the zero-argument function: the
cached return value (frame and displayed error) tagged with its fetch time,
or nothing. -/
structure CacheState where
  entry : Option ((DataFrame × Option String) × Nat)
deriving DecidableEq, Repr

/-- Models one call through the `@st.cache_data(ttl=30)` decorator at time
`now` (seconds): a stored value younger than the TTL is returned without
running the body; otherwise the body's result `compute` is stored and
returned.  The returned flag records whether the body (network I/O) ran. -/
def cachedLoad (s : CacheState) (now : Nat) (compute : DataFrame × Option String) :
    (DataFrame × Option String) × CacheState × Bool :=
  match s.entry with
  | some (v, t) =>
      if now < t + cacheTTL then (v, s, false)
      else (compute, ⟨some (compute, now)⟩, true)
  | none => (compute, ⟨some (compute, now)⟩, true)

/-- `st.cache_data.clear()` — the "Refresh Data" button (lines 245-247)
empties the memo. -/
def clearCache (_ : CacheState) : CacheState := ⟨none⟩

/-- Example frame: all required columns except `output.urgency_level`, one
non-empty row. -/
def exMissingCol : DataFrame :=
  ⟨["output.extracted_requested_action",
    "output.routing_recommendation.department",
    "output.extracted_date_of_issue",
    "output.predicted_intent",
    "output.extracted_product"],
   [[.str "refund", .str "billing", .str "2024-01-01", .str "complaint",
     .str "widget"]]⟩

/-- Example frame for the urgency scenario: one `"High"`, two `""`. -/
def exUrgency : DataFrame :=
  ⟨["output.urgency_level"], [[.str "High"], [.str ""], [.str ""]]⟩

/-- Example frame for the date scenario: `"2024-01-01"`, `"2024-01-01"`,
`"not-a-date"`. -/
def exDates : DataFrame :=
  ⟨[date_col], [[.str "2024-01-01"], [.str "2024-01-01"], [.str "not-a-date"]]⟩

/-- Example frame whose date cells carry distinct times of day on the same
calendar date. -/
def exTimes : DataFrame :=
  ⟨[date_col], [[.str "2024-01-01 10:00"], [.str "2024-01-01 11:00"]]⟩

/-- Example frame with one row whose cells are all present but empty. -/
def exEmptyStrRow : DataFrame :=
  ⟨["output.predicted_intent", "output.extracted_product"],
   [[.str "", .str ""]]⟩

/-- Example frame with one all-NA row and one partially filled row. -/
def exAllNaRow : DataFrame :=
  ⟨["output.predicted_intent", "output.extracted_product"],
   [[.na, .na], [.str "complaint", .na]]⟩

/-- Example frame whose numeric cell is missing in the raw payload. -/
def exNumMissing : DataFrame :=
  ⟨["output.predicted_intent", "output.confidence"],
   [[.str "complaint", .na]]⟩

/-- Example frame whose numeric cell is present but unparsable. -/
def exNumBad : DataFrame :=
  ⟨["output.predicted_intent", "output.confidence"],
   [[.str "complaint", .str "not-a-number"]]⟩

section Helpers

variable {α : Type _}

lemma sum_map_add (f g : α → Nat) (s : List α) :
    (s.map (fun v => f v + g v)).sum = (s.map f).sum + (s.map g).sum := by
  induction s with
  | nil => rfl
  | cons x s ih => simp [ih]; omega

lemma countCell_pos (v : Cell) (l : List Cell) : v ∈ l ↔ 0 < countCell v l := by
  induction l with
  | nil => simp [countCell]
  | cons c cs ih =>
    by_cases h : c = v
    · subst h; simp [countCell]
    · simp [countCell, h, Ne.symm h, ih]

lemma countCell_filter_of_pos (p : Cell → Bool) (v : Cell) (l : List Cell)
    (hv : p v = true) : countCell v (l.filter p) = countCell v l := by
  induction l with
  | nil => rfl
  | cons c cs ih =>
    by_cases h : c = v
    · subst h; simp [List.filter_cons, hv, countCell, ih]
    · by_cases hp : p c
      · simp [List.filter_cons, hp, countCell, h, ih]
      · simp [List.filter_cons, hp, countCell, h, ih]

lemma sum_indicator (s : List Cell) (a : Cell) (hs : s.Nodup) :
    (s.map (fun v => if a = v then 1 else 0)).sum = if a ∈ s then 1 else 0 := by
  induction s with
  | nil => rfl
  | cons x s ih =>
    rcases List.nodup_cons.mp hs with ⟨hx, hs'⟩
    by_cases h : a = x
    · subst h
      simp [List.sum_cons, ih hs', hx]
    · simp [List.sum_cons, h, ih hs', List.mem_cons]

lemma sum_counts (l s : List Cell) (hs : s.Nodup) (hsub : ∀ a ∈ l, a ∈ s) :
    (s.map (fun v => countCell v l)).sum = l.length := by
  induction l with
  | nil => simp [countCell]
  | cons c cs ih =>
    have hsub' : ∀ a ∈ cs, a ∈ s := fun a ha => hsub a (List.mem_cons_of_mem _ ha)
    have hstep : (s.map (fun v => countCell v (c :: cs))).sum
        = (s.map (fun v => if c = v then 1 else 0)).sum
          + (s.map (fun v => countCell v cs)).sum := by
      rw [← sum_map_add]
      congr 1
    rw [hstep, sum_indicator s c hs, ih hsub',
      if_pos (hsub c (List.mem_cons_self c cs))]
    simp [Nat.add_comm]

lemma length_filter_eq_iff (p : α → Bool) (l : List α) :
    (l.filter p).length = l.length ↔ ∀ a ∈ l, p a = true := by
  induction l with
  | nil => simp
  | cons x l ih =>
    by_cases h : p x
    · simp [List.filter_cons, h, ih]
    · have hle := List.length_filter_le p l
      simp only [List.filter_cons, h, Bool.false_eq_true, if_false, List.length_cons]
      constructor
      · intro hlen; omega
      · intro hall
        exact absurd (hall x (List.mem_cons_self x l)) (by simp [h])

lemma lookupCount_map (s : List Cell) (f : Cell → Nat) (v : Cell) :
    lookupCount v (s.map (fun w => (w, f w))) = if v ∈ s then some (f v) else none := by
  induction s with
  | nil => rfl
  | cons w s ih =>
    by_cases h : w = v
    · subst h; simp [lookupCount]
    · simp [lookupCount, h, ih, List.mem_cons, Ne.symm h]

lemma modifyAt_length (f : Cell → Cell) (i : Nat) (l : List Cell) :
    (modifyAt f i l).length = l.length := by
  induction l generalizing i with
  | nil => simp [modifyAt]
  | cons c cs ih =>
    cases i with
    | zero => rfl
    | succ n => simp [modifyAt, ih]

lemma getD_modifyAt_ne (f : Cell → Cell) (i j : Nat) (l : List Cell) (d : Cell)
    (h : j ≠ i) : (modifyAt f i l).getD j d = l.getD j d := by
  induction l generalizing i j with
  | nil => simp [modifyAt]
  | cons c cs ih =>
    cases i with
    | zero =>
      cases j with
      | zero => exact absurd rfl h
      | succ m => rfl
    | succ n =>
      cases j with
      | zero => rfl
      | succ m => simpa [modifyAt] using ih n m (by omega)

lemma getD_modifyAt_self (f : Cell → Cell) (i : Nat) (l : List Cell) (d : Cell)
    (h : i < l.length) : (modifyAt f i l).getD i d = f (l.getD i d) := by
  induction l generalizing i with
  | nil => simp at h
  | cons c cs ih =>
    cases i with
    | zero => rfl
    | succ n => simpa [modifyAt] using ih n (by simpa using h)

end Helpers

section FrameLemmas

lemma toNumeric_eq_foldl (t : DataFrame) :
    t.toNumeric = numeric_cols.foldl numStep t := rfl

lemma numStep_columns (t : DataFrame) (c : String) :
    (numStep t c).columns = t.columns := by
  unfold numStep
  by_cases h : c ∈ t.columns <;> simp [h, DataFrame.mapCol]

lemma foldl_numStep_columns (cols : List String) (t : DataFrame) :
    (cols.foldl numStep t).columns = t.columns := by
  induction cols generalizing t with
  | nil => rfl
  | cons c cols ih => rw [List.foldl_cons, ih, numStep_columns]

lemma numStep_rows_length (t : DataFrame) (c : String) :
    (numStep t c).rows.length = t.rows.length := by
  unfold numStep
  by_cases h : c ∈ t.columns <;> simp [h, DataFrame.mapCol]

lemma foldl_numStep_rows_length (cols : List String) (t : DataFrame) :
    (cols.foldl numStep t).rows.length = t.rows.length := by
  induction cols generalizing t with
  | nil => rfl
  | cons c cols ih => rw [List.foldl_cons, ih, numStep_rows_length]

lemma cleanData_columns (t : DataFrame) : (cleanData t).columns = t.columns := by
  show (DataFrame.toNumeric _).columns = t.columns
  rw [toNumeric_eq_foldl, foldl_numStep_columns]
  rfl

lemma cleanData_rows_length (t : DataFrame) :
    (cleanData t).rows.length = (t.dropnaAll).rows.length := by
  show (DataFrame.toNumeric _).rows.length = _
  rw [toNumeric_eq_foldl, foldl_numStep_rows_length]
  simp [DataFrame.fillna, DataFrame.dropnaAll]

lemma wf_fillna (t : DataFrame) (h : t.wf = true) : t.fillna.wf = true := by
  simp only [DataFrame.wf, DataFrame.fillna, List.all_eq_true] at h ⊢
  intro r hr
  rcases List.mem_map.mp hr with ⟨r0, hr0, rfl⟩
  simpa using h r0 hr0

lemma wf_dropnaAll (t : DataFrame) (h : t.wf = true) : t.dropnaAll.wf = true := by
  simp only [DataFrame.wf, DataFrame.dropnaAll, List.all_eq_true] at h ⊢
  intro r hr
  exact h r (List.mem_of_mem_filter hr)

lemma wf_mapCol (t : DataFrame) (c : String) (f : Cell → Cell) (h : t.wf = true) :
    (t.mapCol c f).wf = true := by
  simp only [DataFrame.wf, DataFrame.mapCol, List.all_eq_true] at h ⊢
  intro r hr
  rcases List.mem_map.mp hr with ⟨r0, hr0, rfl⟩
  simpa [modifyAt_length] using h r0 hr0

lemma wf_numStep (t : DataFrame) (c : String) (h : t.wf = true) :
    (numStep t c).wf = true := by
  unfold numStep
  by_cases hc : c ∈ t.columns
  · simpa [hc] using wf_mapCol t c coerceNumericCell h
  · simpa [hc] using h

lemma fillna_cell (t : DataFrame) (i : Nat) (c : String) (hwf : t.wf = true)
    (hi : i < t.rows.length) (hc : c ∈ t.columns) :
    t.fillna.cell i c = fillCell (t.cell i c) := by
  have hrow : t.rows.getD i [] = t.rows[i] := List.getD_eq_getElem t.rows [] hi
  have hjlt : t.columns.indexOf c < t.columns.length := List.indexOf_lt_length.mpr hc
  have hrlen : t.rows[i].length = t.columns.length := by
    simp only [DataFrame.wf, List.all_eq_true] at hwf
    simpa using hwf t.rows[i] (List.getElem_mem hi)
  have hj : t.columns.indexOf c < t.rows[i].length := by omega
  simp only [DataFrame.cell, DataFrame.fillna]
  have hmap : (t.rows.map (fun r => r.map fillCell)).getD i []
      = t.rows[i].map fillCell := by
    rw [List.getD_eq_getElem _ [] (by simpa using hi)]
    simp
  rw [hmap, hrow]
  rw [List.getD_eq_getElem _ Cell.na (by simpa using hj),
    List.getD_eq_getElem _ Cell.na hj]
  simp

lemma mapCol_cell (t : DataFrame) (i : Nat) (c c' : String) (f : Cell → Cell)
    (hwf : t.wf = true) (hi : i < t.rows.length) (hc : c ∈ t.columns)
    (hc' : c' ∈ t.columns) :
    (t.mapCol c' f).cell i c
      = if c = c' then f (t.cell i c) else t.cell i c := by
  have hrow : t.rows.getD i [] = t.rows[i] := List.getD_eq_getElem t.rows [] hi
  have hrlen : t.rows[i].length = t.columns.length := by
    simp only [DataFrame.wf, List.all_eq_true] at hwf
    simpa using hwf t.rows[i] (List.getElem_mem hi)
  have hmap : ((t.rows.map (modifyAt f (t.columns.indexOf c'))).getD i [])
      = modifyAt f (t.columns.indexOf c') t.rows[i] := by
    rw [List.getD_eq_getElem _ [] (by simpa using hi)]
    simp
  simp only [DataFrame.cell, DataFrame.mapCol]
  rw [hmap, hrow]
  by_cases hcc : c = c'
  · subst hcc
    have hj : t.columns.indexOf c < t.rows[i].length := by
      have := List.indexOf_lt_length.mpr hc
      omega
    rw [if_pos rfl, getD_modifyAt_self f _ _ _ hj]
  · have hne : t.columns.indexOf c ≠ t.columns.indexOf c' := by
      intro h
      exact hcc ((List.indexOf_inj hc hc').mp h)
    rw [if_neg hcc, getD_modifyAt_ne f _ _ _ _ hne]

end FrameLemmas

section PipelineLemmas

lemma coerceNumericCell_idem (x : Cell) :
    coerceNumericCell (coerceNumericCell x) = coerceNumericCell x := by
  cases x with
  | str s => cases h : parseDecimal s <;> simp [coerceNumericCell, h]
  | na => rfl
  | num q => rfl
  | date d => rfl

lemma numStep_cell (t : DataFrame) (i : Nat) (c c' : String) (hwf : t.wf = true)
    (hi : i < t.rows.length) (hc : c ∈ t.columns) :
    (numStep t c').cell i c
      = if c = c' then coerceNumericCell (t.cell i c) else t.cell i c := by
  unfold numStep
  by_cases h : c' ∈ t.columns
  · rw [if_pos h]
    exact mapCol_cell t i c c' _ hwf hi hc h
  · rw [if_neg h]
    have hcc : c ≠ c' := fun hcc => h (hcc ▸ hc)
    rw [if_neg hcc]

lemma foldl_numStep_cell (cols : List String) (t : DataFrame) (i : Nat)
    (c : String) (hwf : t.wf = true) (hi : i < t.rows.length)
    (hc : c ∈ t.columns) :
    (cols.foldl numStep t).cell i c
      = if c ∈ cols then coerceNumericCell (t.cell i c) else t.cell i c := by
  induction cols generalizing t with
  | nil => simp
  | cons c' cols ih =>
    rw [List.foldl_cons]
    have hwf' := wf_numStep t c' hwf
    have hi' : i < (numStep t c').rows.length := by
      rw [numStep_rows_length]; exact hi
    have hc' : c ∈ (numStep t c').columns := by
      rw [numStep_columns]; exact hc
    rw [ih (numStep t c') hwf' hi' hc', numStep_cell t i c c' hwf hi hc]
    by_cases h1 : c = c'
    · subst h1
      by_cases h2 : c ∈ cols <;> simp [h2, coerceNumericCell_idem]
    · by_cases h2 : c ∈ cols <;> simp [h1, h2, List.mem_cons]

lemma cleanData_cell (t : DataFrame) (i : Nat) (c : String) (hwf : t.wf = true)
    (hi : i < t.dropnaAll.rows.length) (hc : c ∈ t.columns) :
    (cleanData t).cell i c
      = if c ∈ numeric_cols
        then coerceNumericCell (fillCell (t.dropnaAll.cell i c))
        else fillCell (t.dropnaAll.cell i c) := by
  have hwf1 := wf_dropnaAll t hwf
  have hwf2 := wf_fillna _ hwf1
  have hi2 : i < t.dropnaAll.fillna.rows.length := by
    simpa [DataFrame.fillna] using hi
  have hc2 : c ∈ t.dropnaAll.fillna.columns := hc
  show (t.dropnaAll.fillna.toNumeric).cell i c = _
  rw [toNumeric_eq_foldl, foldl_numStep_cell numeric_cols _ i c hwf2 hi2 hc2,
    fillna_cell _ i c hwf1 hi hc]

lemma valueCounts_sum (l : List Cell) :
    ((valueCounts l).map Prod.snd).sum
      = (l.filter (fun c => !c.isNA)).length := by
  show (((l.filter (fun c => !c.isNA)).dedup.map
      (fun v => (v, countCell v (l.filter (fun c => !c.isNA))))).map Prod.snd).sum = _
  rw [List.map_map]
  exact sum_counts _ _ (List.nodup_dedup _) (fun a ha => List.mem_dedup.mpr ha)

lemma mem_valueCounts (l : List Cell) (v : Cell) (n : Nat)
    (h : (v, n) ∈ valueCounts l) :
    v.isNA = false ∧ n = countCell v l ∧ 0 < n := by
  rcases List.mem_map.mp h with ⟨w, hw, hew⟩
  injection hew with h1 h2
  subst h1
  subst h2
  have hwf : w ∈ l.filter (fun c => !c.isNA) := List.mem_dedup.mp hw
  have hpred : (!w.isNA) = true := (List.mem_filter.mp hwf).2
  have hna : w.isNA = false := by simpa using hpred
  have hpos : 0 < countCell w (l.filter (fun c => !c.isNA)) :=
    (countCell_pos _ _).mp hwf
  have hcnt := countCell_filter_of_pos (fun c => !c.isNA) w l hpred
  exact ⟨hna, hcnt, hpos⟩

lemma lookup_valueCounts (l : List Cell) (v : Cell) (hv : v.isNA = false) :
    lookupCount v (valueCounts l)
      = if 0 < countCell v l then some (countCell v l) else none := by
  have hp : (!v.isNA) = true := by simp [hv]
  show lookupCount v ((l.filter (fun c => !c.isNA)).dedup.map
      (fun w => (w, countCell w (l.filter (fun c => !c.isNA))))) = _
  rw [lookupCount_map]
  have hcnt := countCell_filter_of_pos (fun c => !c.isNA) v l hp
  by_cases h : v ∈ (l.filter (fun c => !c.isNA)).dedup
  · have hpos : 0 < countCell v l := by
      rw [← hcnt]
      exact (countCell_pos _ _).mp (List.mem_dedup.mp h)
    rw [if_pos h, hcnt, if_pos hpos]
  · have hnpos : ¬ 0 < countCell v l := by
      rw [← hcnt]
      intro hpos
      exact h (List.mem_dedup.mpr ((countCell_pos _ _).mpr hpos))
    rw [if_neg h, if_neg hnpos]

lemma lookup_valueCounts_na (l : List Cell) :
    lookupCount Cell.na (valueCounts l) = none := by
  show lookupCount Cell.na ((l.filter (fun c => !c.isNA)).dedup.map
      (fun w => (w, countCell w (l.filter (fun c => !c.isNA))))) = none
  rw [lookupCount_map, if_neg]
  intro h
  have hm := List.mem_filter.mp (List.mem_dedup.mp h)
  simp [Cell.isNA] at hm

lemma col_length (t : DataFrame) (c : String) :
    (t.col c).length = t.rows.length := by
  simp [DataFrame.col]

end PipelineLemmas

section Claims

/-- C7: `load_email_data_from_gsheets` attempts the primary read and, on its
failure, exactly one alternate read (the explicit `"Sheet1"` worksheet) —
when the primary succeeds the alternate outcome is irrelevant, and at most
two read attempts ever happen; if both reads (or the connection itself) fail,
it returns the empty table together with a human-readable cause string, and
as a total function it propagates no exception past its boundary. -/
theorem C7_fetch_two_tier_fallback (df : DataFrame) (e1 e2 ec : String)
    (r1 r2 r2' : Except String DataFrame) :
    load_email_data_from_gsheets (.ok ()) (.ok df) r2
      = load_email_data_from_gsheets (.ok ()) (.ok df) r2' ∧
    load_email_data_from_gsheets (.ok ()) (.ok df) r2 = (cleanData df, none) ∧
    load_email_data_from_gsheets (.ok ()) (.error e1) (.ok df)
      = (cleanData df, none) ∧
    load_email_data_from_gsheets (.ok ()) (.error e1) (.error e2)
      = (emptyDataFrame, some ("Failed to read from Google Sheets: " ++ e2)) ∧
    load_email_data_from_gsheets (.error ec) r1 r2
      = (emptyDataFrame, some ("Error loading data from Google Sheets: " ++ ec)) ∧
    readAttempts r1 ≤ 2 := by
  refine ⟨rfl, rfl, rfl, rfl, rfl, ?_⟩
  cases r1 <;> simp [readAttempts]

/-- C8: starting from an empty memo, a first fetch at time `t1` performs the
network read; a second fetch at `t2` within the 30-second TTL with no
intervening invalidation returns the same result without a network read —
exactly one request across the two calls — while clearing the cache (the
Refresh Data button) forces the next fetch back onto the network. -/
theorem C8_cache_ttl (t1 t2 : Nat) (v1 v2 v3 : DataFrame × Option String)
    (h : t2 < t1 + cacheTTL) :
    (cachedLoad ⟨none⟩ t1 v1).2.2 = true ∧
    (cachedLoad (cachedLoad ⟨none⟩ t1 v1).2.1 t2 v2).1
      = (cachedLoad ⟨none⟩ t1 v1).1 ∧
    (cachedLoad (cachedLoad ⟨none⟩ t1 v1).2.1 t2 v2).2.2 = false ∧
    (cachedLoad
      (clearCache (cachedLoad (cachedLoad ⟨none⟩ t1 v1).2.1 t2 v2).2.1)
      t2 v3).2.2 = true := by
  refine ⟨rfl, ?_, ?_, rfl⟩ <;> simp [cachedLoad, h]

/-- C8 witness: concrete calls at times 0 and 10 with the 30-second TTL. -/
theorem C8_cache_ttl_witness :
    (cachedLoad (cachedLoad ⟨none⟩ 0 (emptyDataFrame, none)).2.1 10
      (emptyDataFrame, none)).2.2 = false :=
  (C8_cache_ttl 0 10 (emptyDataFrame, none) (emptyDataFrame, none)
    (emptyDataFrame, none) (by decide)).2.2.1

/-- C4: for every frame and every column, the counts reported by
`aggregateByCategory` (pandas `value_counts`) sum to the number of rows whose
cell in that column is non-null. -/
theorem C4_aggregate_sum (t : DataFrame) (c : String) :
    ((aggregateByCategory t c).map Prod.snd).sum
      = ((t.col c).filter (fun x => !x.isNA)).length :=
  valueCounts_sum (t.col c)

/-- C5: cleaning returns at most as many rows as the raw frame, with equality
exactly when no raw row is fully empty (all cells NA). -/
theorem C5_row_count_invariant (t : DataFrame) :
    (cleanData t).rows.length ≤ t.rows.length ∧
    ((cleanData t).rows.length = t.rows.length
      ↔ ∀ r ∈ t.rows, fullyEmptyRow r = false) := by
  have hlen : (cleanData t).rows.length
      = (t.rows.filter (fun r => !fullyEmptyRow r)).length :=
    cleanData_rows_length t
  rw [hlen]
  refine ⟨List.length_filter_le _ _, ?_⟩
  rw [length_filter_eq_iff]
  constructor
  · intro h r hr
    simpa using h r hr
  · intro h r hr
    simp [h r hr]

/-- C9: the drop-empty step removes exactly the raw rows whose cells are all
missing (NA); a row whose cells are all present but equal to `""` is kept,
while an all-NA row is dropped — `dropna(how='all')` runs before missing
cells are filled with empty strings. -/
theorem C9_drop_only_all_na (t : DataFrame) :
    (cleanData t).rows.length
      = (t.rows.filter (fun r => !fullyEmptyRow r)).length ∧
    (cleanData exEmptyStrRow).rows.length = 1 ∧
    (cleanData exAllNaRow).rows.length = 1 :=
  ⟨cleanData_rows_length t, rfl, rfl⟩

end Claims

section Claims2

lemma coerce_isNumOrNA (y : Cell) :
    (coerceNumericCell y).isNumOrNA = true := by
  cases y with
  | str s => cases h : parseDecimal s <;> simp [coerceNumericCell, h, Cell.isNumOrNA]
  | na => rfl
  | num q => rfl
  | date d => rfl

/-- C2 counterexample: on one `"High"` and two `""` urgency cells, the code's
`value_counts` keeps the empty string as a category of its own — the result
maps `""` to 2 instead of being exactly `{"High": 1}` as the claim states. -/
theorem C2_counterexample :
    aggregateByCategory exUrgency "output.urgency_level"
      = [(.str "High", 1), (.str "", 2)] ∧
    lookupCount (.str "") (aggregateByCategory exUrgency "output.urgency_level")
      = some 2 :=
  ⟨rfl, rfl⟩

/-- C2 (amended): `aggregateByCategory` counts non-null values grouped by
exact (case- and whitespace-sensitive) equality; a null (NA) value
contributes no category or count, but an empty-string value is a category
like any other: a non-null value maps to its exact occurrence count (and is
absent exactly when that count is zero), NA is never a key, and the scenario
with `urgency_level` values `"High"`, `""`, `""` yields `{"High": 1, "": 2}`. -/
theorem C2_aggregate_by_category (t : DataFrame) (c : String) (v : Cell)
    (hv : v.isNA = false) :
    lookupCount v (aggregateByCategory t c)
      = (if 0 < countCell v (t.col c)
         then some (countCell v (t.col c)) else none) ∧
    lookupCount Cell.na (aggregateByCategory t c) = none ∧
    aggregateByCategory exUrgency "output.urgency_level"
      = [(.str "High", 1), (.str "", 2)] :=
  ⟨lookup_valueCounts _ v hv, lookup_valueCounts_na _, rfl⟩

/-- C2 witness: looking `"High"` up in the urgency scenario yields its count. -/
theorem C2_aggregate_by_category_witness :
    lookupCount (.str "High") (aggregateByCategory exUrgency "output.urgency_level")
      = some 1 :=
  ((C2_aggregate_by_category exUrgency "output.urgency_level" (.str "High")
    (by decide)).1).trans (by decide)

/-- C3 counterexample: two cells on the same calendar date but with different
times of day land in different groups — the code groups by the full parsed
timestamp, so its result differs from the spec's calendar-date grouping with
time-of-day discarded. -/
theorem C3_counterexample :
    aggregateByDate exTimes
      = [(.date ⟨2024, 1, 1, 10, 0⟩, 1), (.date ⟨2024, 1, 1, 11, 0⟩, 1)] ∧
    aggregateByDate_spec exTimes = [(.date ⟨2024, 1, 1, 0, 0⟩, 2)] ∧
    aggregateByDate exTimes ≠ aggregateByDate_spec exTimes :=
  ⟨rfl, rfl, by decide⟩

/-- C3 (amended): `aggregateByDate` groups records by the full parsed
datetime value of the date field — time-of-day preserved, not discarded —
and excludes every record whose date is null or unparsable; each reported
count is the exact number of records with that parsed datetime, and on the
date-only scenario `"2024-01-01"`, `"2024-01-01"`, `"not-a-date"` the result
is exactly `{2024-01-01: 2}` with the unparsable row excluded. -/
theorem C3_aggregate_by_date (t : DataFrame) (v : Cell) (n : Nat)
    (h : (v, n) ∈ aggregateByDate t) :
    v.isNA = false ∧
    n = countCell v ((t.col date_col).map coerceDateCell) ∧
    aggregateByDate exDates = [(.date ⟨2024, 1, 1, 0, 0⟩, 2)] := by
  obtain ⟨h1, h2, _⟩ := mem_valueCounts _ v n h
  exact ⟨h1, h2, rfl⟩

/-- C3 witness: the single group of the date scenario, with its count. -/
theorem C3_aggregate_by_date_witness :
    (Cell.date ⟨2024, 1, 1, 0, 0⟩).isNA = false ∧
    2 = countCell (.date ⟨2024, 1, 1, 0, 0⟩)
      ((exDates.col date_col).map coerceDateCell) ∧
    aggregateByDate exDates = [(.date ⟨2024, 1, 1, 0, 0⟩, 2)] :=
  C3_aggregate_by_date exDates (.date ⟨2024, 1, 1, 0, 0⟩) 2 (by decide)

/-- C1 counterexample: for a non-empty payload lacking the
`output.urgency_level` column, cleaning does not add the missing key, the
required-column check reports it, and the page stops (`st.stop`) instead of
rendering the remaining data. -/
theorem C1_counterexample :
    missing_columns (cleanData exMissingCol) = ["output.urgency_level"] ∧
    dashboardRenders (cleanData exMissingCol) = false ∧
    (cleanData exMissingCol).rows ≠ [] ∧
    "output.urgency_level" ∉ (cleanData exMissingCol).columns :=
  ⟨rfl, rfl, by decide, by decide⟩

/-- C1 (amended): an expected semantic column absent from the payload is not
treated as present-but-empty — cleaning preserves the column set exactly, so
the key stays missing — and whenever any required column is missing the
dashboard reports the missing columns and aborts rendering of all the data
(`st.stop`); only missing cells within present columns are filled. -/
theorem C1_missing_column_aborts (t : DataFrame)
    (h : missing_columns t ≠ []) :
    dashboardRenders t = false ∧ (cleanData t).columns = t.columns := by
  constructor
  · have hne : (missing_columns t).isEmpty = false := by
      cases hm : missing_columns t with
      | nil => exact absurd hm h
      | cons a l => rfl
    simp [dashboardRenders, hne]
  · exact cleanData_columns t

/-- C1 witness: the frame missing `output.urgency_level`. -/
theorem C1_missing_column_aborts_witness :
    dashboardRenders exMissingCol = false ∧
    (cleanData exMissingCol).columns = exMissingCol.columns :=
  C1_missing_column_aborts exMissingCol (by decide)

/-- C6: cleaning is a total function (no exception path) and degrades
per-field: for every well-formed frame, each cell of the cleaned frame is
determined by its own raw cell alone — the NA-fill followed by the numeric
coercion (whose parse failures yield NA) on the three designated numeric
columns, and the NA-fill alone on every other column — so a failed coercion
nulls that field of that record only, leaving the rest of the record and all
other records intact. -/
theorem C6_normalize_per_field (t : DataFrame) (i : Nat) (c : String)
    (hwf : t.wf = true) (hi : i < (cleanData t).rows.length)
    (hc : c ∈ t.columns) :
    (cleanData t).cell i c
      = if c ∈ numeric_cols
        then coerceNumericCell (fillCell (t.dropnaAll.cell i c))
        else fillCell (t.dropnaAll.cell i c) := by
  have hi' : i < t.dropnaAll.rows.length := by
    have hl := cleanData_rows_length t
    have : (cleanData t).rows.length = t.dropnaAll.rows.length := hl
    omega
  exact cleanData_cell t i c hwf hi' hc

/-- C6 witness: the numeric cell of the frame with a missing raw value. -/
theorem C6_normalize_per_field_witness :
    (cleanData exNumMissing).cell 0 "output.confidence"
      = if "output.confidence" ∈ numeric_cols
        then coerceNumericCell
          (fillCell (exNumMissing.dropnaAll.cell 0 "output.confidence"))
        else fillCell (exNumMissing.dropnaAll.cell 0 "output.confidence") :=
  C6_normalize_per_field exNumMissing 0 "output.confidence"
    (by decide) (by decide) (by decide)

/-- C10: in a well-formed frame that contains a designated numeric column,
every cleaned value of that column is a parsed number or NA; a raw cell that
is missing and one that is present but unparsable clean to the same NA (both
become `""` under `fillna` and coerce to NaN), so they are indistinguishable
afterwards; and cleaning never adds a column, so an absent numeric column is
skipped silently. -/
theorem C10_numeric_columns (t : DataFrame) (c : String) (hwf : t.wf = true)
    (hc : c ∈ numeric_cols) (hcc : c ∈ t.columns) :
    (∀ x ∈ (cleanData t).col c, x.isNumOrNA = true) ∧
    (cleanData t).columns = t.columns ∧
    cleanData exNumMissing = cleanData exNumBad ∧
    (cleanData exNumMissing).cell 0 "output.confidence" = Cell.na := by
  refine ⟨?_, cleanData_columns t, by decide, by decide⟩
  intro x hx
  rcases List.mem_map.mp hx with ⟨r, hr, hxe⟩
  rcases List.getElem_of_mem hr with ⟨i, hilen, hie⟩
  have hx2 : x = (cleanData t).cell i c := by
    rw [← hxe, DataFrame.cell, List.getD_eq_getElem _ [] hilen, hie]
  have hi' : i < t.dropnaAll.rows.length := by
    have : (cleanData t).rows.length = t.dropnaAll.rows.length :=
      cleanData_rows_length t
    omega
  rw [hx2, cleanData_cell t i c hwf hi' hcc, if_pos hc]
  exact coerce_isNumOrNA _

/-- C10 witness: the frame whose confidence cell is missing. -/
theorem C10_numeric_columns_witness :
    (∀ x ∈ (cleanData exNumMissing).col "output.confidence",
      x.isNumOrNA = true) ∧
    (cleanData exNumMissing).columns = exNumMissing.columns ∧
    cleanData exNumMissing = cleanData exNumBad ∧
    (cleanData exNumMissing).cell 0 "output.confidence" = Cell.na :=
  C10_numeric_columns exNumMissing "output.confidence"
    (by decide) (by decide) (by decide)

end Claims2
